import Mathlib

/-!
Verification of the Flask plant-store CRUD service (`server/app.py`).

The service exposes two resources:
  * `Plants` at `/plants` with `get` (list all) and `post` (create);
  * `PlantByID` at `/plants/<int:id>` with `get`, `patch` and `delete`.

State lives in a relational store of Plant records. We embed the store as
an explicit `DB` value threaded through each handler; every handler
returns the post-state together with the HTTP response, mirroring the
single unit of work (query / mutate / commit) each Flask handler performs.

JSON values carried in request and response bodies are embedded by `Json`.
Field values are stored without validation or coercion, exactly as the
handlers do (`setattr` stores whatever the body supplied).
-/

/-- JSON values, as parsed from request bodies and produced in responses. -/
inductive Json where
  | null
  | bool (b : Bool)
  | num (n : Int)
  | str (s : String)
  | arr (xs : List Json)
  | obj (kvs : List (String × Json))

/-- `j` is the JSON number equal to the path integer `n`
(the `<int:id>` route converter only matches nonnegative integers). -/
def Json.isNum (j : Json) (n : Nat) : Bool :=
  match j with
  | .num m => m == (n : Int)
  | _ => false

/-- `j` is the JSON number equal to the integer `m` (the stored-value
comparison the unique-id constraint performs; a non-number never equals an
integer). -/
def Json.sameNum (j : Json) (m : Int) : Bool :=
  match j with
  | .num k => k == m
  | _ => false

/-- Modelled from the spec: the Plant entity of `models.py` (absent from the
source tree; only `app.py`, its caller, is present). Fields follow §3 of the
spec: `id` (system-generated integer), `name`, `image`, `price`,
`is_in_stock`. Each field holds whatever JSON value was stored for it —
"no field is validated for type or range". -/
structure Plant where
  id : Json
  name : Json
  image : Json
  price : Json
  is_in_stock : Json

/-- Modelled from the spec: the attribute names of the Plant entity, used by
the `hasattr` test in `PlantByID.patch`. -/
def Plant.hasattr (k : String) : Bool :=
  k = "id" || k = "name" || k = "image" || k = "price" || k = "is_in_stock"

/-- Modelled from the spec: `setattr(plant, k, v)` — overwrite the attribute
named `k` with `v`, with no type coercion or validation. -/
def Plant.setattr (p : Plant) (k : String) (v : Json) : Plant :=
  if k = "id" then { p with id := v }
  else if k = "name" then { p with name := v }
  else if k = "image" then { p with image := v }
  else if k = "price" then { p with price := v }
  else if k = "is_in_stock" then { p with is_in_stock := v }
  else p

/-- Modelled from the spec: `plant.to_dict()`, the flat key/value dictionary
form used in all responses (§6: `{"id", "name", "image", "price",
"is_in_stock"}`). -/
def Plant.to_dict (p : Plant) : List (String × Json) :=
  [("id", p.id), ("name", p.name), ("image", p.image),
   ("price", p.price), ("is_in_stock", p.is_in_stock)]

/-- The relational store: the table of Plant records, plus the next
system-generated identifier. Modelled from the spec for the identifier
source: "Persists the record, assigning it a new unique identifier". -/
structure DB where
  plants : List Plant
  nextId : Nat

/-- An HTTP response: status code and JSON body (`Json.str ""` stands for
the empty body of `make_response('', 204)`). -/
structure Response where
  status : Nat
  body : Json

/-- The body `{"error": "Plant not found"}` shared by all not-found
responses. -/
def notFoundBody : Json :=
  Json.obj [("error", Json.str "Plant not found")]

/-- `data[k]` / `data.get(k)` on a parsed JSON object: the value at the
first occurrence of key `k`, if any. -/
def jsonGet (data : List (String × Json)) (k : String) : Option Json :=
  (data.find? (fun kv => kv.1 == k)).map (fun kv => kv.2)

/-- `Plant.query.filter_by(id=id).first()`: the record whose stored id is
the path integer `i`. -/
def matchesId (i : Nat) (p : Plant) : Bool :=
  p.id.isNum i

/-- Lookup used by all three `PlantByID` handlers. -/
def DB.findPlant (db : DB) (i : Nat) : Option Plant :=
  db.plants.find? (matchesId i)

/-- `Plants.get`: serialize every record to its dictionary form and return
the array with status 200. -/
def Plants.get (db : DB) : DB × Response :=
  (db, ⟨200, Json.arr (db.plants.map (fun p => Json.obj p.to_dict))⟩)

/-- `Plants.post`: build a new Plant from `data['name']`, `data['image']`,
`data['price']` and `data.get('is_in_stock', True)`; a missing required key
raises `KeyError`, caught and turned into a 400 with
`{"errors": [str(e)]}` before anything is added to the session. On success
the record is committed with a fresh identifier and echoed with 201. -/
def Plants.post (db : DB) (data : List (String × Json)) : DB × Response :=
  match jsonGet data "name" with
  | none => (db, ⟨400, Json.obj [("errors", Json.arr [Json.str "'name'"])]⟩)
  | some n =>
  match jsonGet data "image" with
  | none => (db, ⟨400, Json.obj [("errors", Json.arr [Json.str "'image'"])]⟩)
  | some img =>
  match jsonGet data "price" with
  | none => (db, ⟨400, Json.obj [("errors", Json.arr [Json.str "'price'"])]⟩)
  | some pr =>
    let newPlant : Plant :=
      ⟨Json.num db.nextId, n, img, pr, (jsonGet data "is_in_stock").getD (Json.bool true)⟩
    (⟨db.plants ++ [newPlant], db.nextId + 1⟩, ⟨201, Json.obj newPlant.to_dict⟩)

/-- `PlantByID.get`: dictionary form with 200 when found, otherwise the
fixed 404 body. -/
def PlantByID.get (db : DB) (i : Nat) : DB × Response :=
  match db.findPlant i with
  | some p => (db, ⟨200, Json.obj p.to_dict⟩)
  | none => (db, ⟨404, notFoundBody⟩)

/-- The `for key, value in data.items()` loop of `PlantByID.patch`:
`setattr` for every key that passes `hasattr`, other keys skipped. -/
def applyData (p : Plant) (data : List (String × Json)) : Plant :=
  data.foldl (fun q kv => if Plant.hasattr kv.1 then q.setattr kv.1 kv.2 else q) p

/-- Committing the mutated ORM object: the first record matched by the
lookup is written back in place. -/
def replaceFirst (pred : Plant → Bool) (p' : Plant) : List Plant → List Plant
  | [] => []
  | q :: rest => if pred q then p' :: rest else q :: replaceFirst pred p' rest

/-- `db.session.delete(plant)`: the record found by the lookup is removed. -/
def removeFirst (pred : Plant → Bool) : List Plant → List Plant
  | [] => []
  | q :: rest => if pred q then rest else q :: removeFirst pred rest

/-- Modelled from the spec: the storage layer's implicit constraints on the
id column (§3 "integer, unique"), checked when the update is committed.
The record was found by the integer path id `i`, so the commit can only
fail when the update rewrote the record's id: to a non-integer value
(datatype mismatch) or to the id of another record (unique-constraint
violation). `others` are the remaining records. On failure the handler's
except branch reports `str(e)`, a free-text message (§7). -/
def commitError (i : Nat) (p' : Plant) (others : List Plant) : Option String :=
  if p'.id.isNum i then none
  else
    match p'.id with
    | .num m =>
      if others.any (fun q => q.id.sameNum m) then
        some "UNIQUE constraint failed: plants.id"
      else none
    | _ => some "datatype mismatch"

/-- `PlantByID.patch`: 404 when the id is absent; otherwise every key of the
body whose name matches an attribute is assigned and the change committed.
A failing commit is caught by the handler's except branch and answered with
400 and `{"errors": [str(e)]}`, the durable store unchanged; on success the
updated dictionary form is returned with 200. -/
def PlantByID.patch (db : DB) (i : Nat) (data : List (String × Json)) : DB × Response :=
  match db.findPlant i with
  | none => (db, ⟨404, notFoundBody⟩)
  | some p =>
    let p' := applyData p data
    match commitError i p' (removeFirst (matchesId i) db.plants) with
    | some msg => (db, ⟨400, Json.obj [("errors", Json.arr [Json.str msg])]⟩)
    | none =>
      (⟨replaceFirst (matchesId i) p' db.plants, db.nextId⟩, ⟨200, Json.obj p'.to_dict⟩)

/-- `PlantByID.delete`: 404 when the id is absent; otherwise the record is
removed and an empty 204 response returned. -/
def PlantByID.delete (db : DB) (i : Nat) : DB × Response :=
  match db.findPlant i with
  | none => (db, ⟨404, notFoundBody⟩)
  | some _ => (⟨removeFirst (matchesId i) db.plants, db.nextId⟩, ⟨204, Json.str ""⟩)

/-- Stores reachable from the empty table by any sequence of creates and
deletes. -/
inductive Reachable : DB → Prop where
  | init : Reachable ⟨[], 1⟩
  | create (db : DB) (data : List (String × Json)) :
      Reachable db → Reachable (Plants.post db data).1
  | destroy (db : DB) (i : Nat) :
      Reachable db → Reachable (PlantByID.delete db i).1

/-! ### Helper lemmas about the list-level operations -/

theorem find?_append_last (pred : Plant → Bool) (l : List Plant) (x : Plant)
    (hl : ∀ q ∈ l, pred q = false) (hx : pred x = true) :
    (l ++ [x]).find? pred = some x := by
  induction l with
  | nil => simp [List.find?, hx]
  | cons q rest ih =>
    have hq := hl q (by simp)
    simp only [List.cons_append, List.find?_cons, hq]
    exact ih (fun r hr => hl r (by simp [hr]))

theorem find?_middle (pred : Plant → Bool) (pre post : List Plant) (p : Plant)
    (hpre : ∀ q ∈ pre, pred q = false) (hp : pred p = true) :
    (pre ++ p :: post).find? pred = some p := by
  induction pre with
  | nil => simp [List.find?, hp]
  | cons q rest ih =>
    have hq := hpre q (by simp)
    simp only [List.cons_append, List.find?_cons, hq]
    exact ih (fun r hr => hpre r (by simp [hr]))

theorem replaceFirst_middle (pred : Plant → Bool) (p' : Plant)
    (pre post : List Plant) (p : Plant)
    (hpre : ∀ q ∈ pre, pred q = false) (hp : pred p = true) :
    replaceFirst pred p' (pre ++ p :: post) = pre ++ p' :: post := by
  induction pre with
  | nil => simp [replaceFirst, hp]
  | cons q rest ih =>
    have hq := hpre q (by simp)
    simp only [List.cons_append, replaceFirst, hq]
    simp only [Bool.false_eq_true, if_false, List.cons.injEq, true_and]
    exact ih (fun r hr => hpre r (by simp [hr]))

theorem replaceFirst_self (pred : Plant → Bool) (l : List Plant) (p : Plant)
    (h : l.find? pred = some p) : replaceFirst pred p l = l := by
  induction l with
  | nil => simp [List.find?] at h
  | cons q rest ih =>
    by_cases hq : pred q = true
    · rw [List.find?_cons_of_pos _ hq] at h
      cases h
      simp [replaceFirst, hq]
    · rw [List.find?_cons_of_neg _ hq] at h
      simp [replaceFirst, hq, ih h]

theorem find?_removeFirst_of_countP_le_one (pred : Plant → Bool) (l : List Plant)
    (h : l.countP pred ≤ 1) : (removeFirst pred l).find? pred = none := by
  induction l with
  | nil => simp [removeFirst, List.find?]
  | cons q rest ih =>
    by_cases hq : pred q = true
    · rw [List.countP_cons] at h
      simp [hq] at h
      have hall : ∀ r ∈ rest, ¬ pred r = true := fun r hr hpr => by
        rw [h r hr] at hpr
        exact Bool.false_ne_true hpr
      simp only [removeFirst, hq, if_true]
      exact List.find?_eq_none.mpr hall
    · have hcount : rest.countP pred ≤ 1 := by
        rw [List.countP_cons] at h
        omega
      have hq' : pred q = false := by simpa using hq
      simp only [removeFirst, hq', Bool.false_eq_true, if_false]
      rw [List.find?_cons_of_neg _ hq]
      exact ih hcount

/-- The sample record of the spec's example scenario. -/
def aloe : Plant :=
  ⟨Json.num 1, Json.str "Aloe", Json.str "aloe.jpg", Json.num 15, Json.bool true⟩

/-- A one-record store holding `aloe`, next identifier 2. -/
def db1 : DB := ⟨[aloe], 2⟩

/-- C8: GET `/plants` and GET `/plants/{id}` leave the storage state
unchanged: both handlers return the store exactly as they received it. -/
theorem get_endpoints_pure (db : DB) (i : Nat) :
    (Plants.get db).1 = db ∧ (PlantByID.get db i).1 = db := by
  constructor
  · rfl
  · cases hm : db.findPlant i <;> simp [PlantByID.get, hm]

/-- C2 (code evaluated at the failing input): on a store holding the plant
with id 1, `PATCH /plants/1` with body `{"id": 99}` answers 200 and leaves
the stored record with id 99 — the handler's `hasattr`/`setattr` loop has
no guard for the identifier, so the id is not immutable. -/
theorem patch_overwrites_id :
    (PlantByID.patch db1 1 [("id", Json.num 99)]).2.status = 200 ∧
    (PlantByID.patch db1 1 [("id", Json.num 99)]).1.plants.map Plant.id
      = [Json.num 99] := by
  constructor <;> rfl

/-- C3: on an id absent from storage, GET, PATCH (with any body) and DELETE
each answer 404 with exactly the body `{"error": "Plant not found"}` (hence
never 400 or 500) and leave the store unchanged. -/
theorem nonexistent_id_404 (db : DB) (i : Nat) (data : List (String × Json))
    (h : db.findPlant i = none) :
    PlantByID.get db i = (db, ⟨404, notFoundBody⟩) ∧
    PlantByID.patch db i data = (db, ⟨404, notFoundBody⟩) ∧
    PlantByID.delete db i = (db, ⟨404, notFoundBody⟩) := by
  refine ⟨?_, ?_, ?_⟩ <;>
    simp [PlantByID.get, PlantByID.patch, PlantByID.delete, h]

theorem nonexistent_id_404_witness :
    PlantByID.get ⟨[], 1⟩ 7 = (⟨[], 1⟩, ⟨404, notFoundBody⟩) ∧
    PlantByID.patch ⟨[], 1⟩ 7 [("is_in_stock", Json.bool false)]
      = (⟨[], 1⟩, ⟨404, notFoundBody⟩) ∧
    PlantByID.delete ⟨[], 1⟩ 7 = (⟨[], 1⟩, ⟨404, notFoundBody⟩) :=
  nonexistent_id_404 ⟨[], 1⟩ 7 [("is_in_stock", Json.bool false)] rfl

/-- C5: POST `/plants` with a body lacking the key `name` answers 400 with a
body `{"errors": [...]}` whose array is non-empty, and persists nothing: the
store after the request is the store before it. -/
theorem post_missing_name (db : DB) (data : List (String × Json))
    (h : jsonGet data "name" = none) :
    (Plants.post db data).1 = db ∧
    (Plants.post db data).2.status = 400 ∧
    ∃ msgs : List Json,
      (Plants.post db data).2.body = Json.obj [("errors", Json.arr msgs)] ∧
      msgs ≠ [] := by
  refine ⟨?_, ?_, [Json.str "'name'"], ?_, ?_⟩ <;> simp [Plants.post, h]

theorem post_missing_name_witness :
    (Plants.post ⟨[], 1⟩ [("image", Json.str "x.jpg"), ("price", Json.num 3)]).1 = ⟨[], 1⟩ ∧
    (Plants.post ⟨[], 1⟩ [("image", Json.str "x.jpg"), ("price", Json.num 3)]).2.status = 400 ∧
    ∃ msgs : List Json,
      (Plants.post ⟨[], 1⟩ [("image", Json.str "x.jpg"), ("price", Json.num 3)]).2.body
        = Json.obj [("errors", Json.arr msgs)] ∧
      msgs ≠ [] :=
  post_missing_name ⟨[], 1⟩ [("image", Json.str "x.jpg"), ("price", Json.num 3)] rfl

/-- C6: on every store reachable by creates and deletes, GET `/plants`
answers 200 with the JSON array of the records' dictionary forms, whose
length is the number of records in storage. -/
theorem get_all_list (db : DB) (_h : Reachable db) :
    (Plants.get db).2.status = 200 ∧
    (Plants.get db).2.body = Json.arr (db.plants.map (fun p => Json.obj p.to_dict)) ∧
    (db.plants.map (fun p => Json.obj p.to_dict)).length = db.plants.length := by
  refine ⟨rfl, rfl, ?_⟩
  simp

theorem get_all_list_witness :
    (Plants.get ⟨[], 1⟩).2.status = 200 ∧ (Plants.get ⟨[], 1⟩).2.body = Json.arr [] :=
  ⟨(get_all_list ⟨[], 1⟩ Reachable.init).1, rfl⟩

/-- C10: PATCH `/plants/{id}` with the empty object `{}` on an existing
record answers 200 with that record's unchanged dictionary form and leaves
the store exactly as it was. -/
theorem patch_empty_object (db : DB) (i : Nat) (p : Plant)
    (h : db.findPlant i = some p) :
    PlantByID.patch db i [] = (db, ⟨200, Json.obj p.to_dict⟩) := by
  have hf : db.plants.find? (matchesId i) = some p := h
  have hm : matchesId i p = true := List.find?_some hf
  have hid : p.id.isNum i = true := hm
  have hce : commitError i p (removeFirst (matchesId i) db.plants) = none := by
    simp [commitError, hid]
  simp only [PlantByID.patch, h, applyData, List.foldl_nil, hce]
  rw [replaceFirst_self _ _ _ hf]

theorem patch_empty_object_witness :
    PlantByID.patch db1 1 [] = (db1, ⟨200, Json.obj aloe.to_dict⟩) :=
  patch_empty_object db1 1 aloe rfl

/-- C1: for a creation payload carrying `name`, `image` and `price` (the
store's next identifier being fresh), POST `/plants` answers 201 with the
created record carrying that id, and GET `/plants/{that id}` then answers
200 with a record whose `name`, `image` and `price` equal the submitted
values and whose `is_in_stock` is the submitted value, or `true` when the
key was omitted. -/
theorem post_then_get (db : DB) (data : List (String × Json)) (n img pr : Json)
    (hn : jsonGet data "name" = some n)
    (hi : jsonGet data "image" = some img)
    (hp : jsonGet data "price" = some pr)
    (hfresh : ∀ q ∈ db.plants, matchesId db.nextId q = false) :
    (Plants.post db data).2.status = 201 ∧
    (Plants.post db data).2.body = Json.obj
      [("id", Json.num db.nextId), ("name", n), ("image", img), ("price", pr),
       ("is_in_stock", (jsonGet data "is_in_stock").getD (Json.bool true))] ∧
    (PlantByID.get (Plants.post db data).1 db.nextId).2.status = 200 ∧
    (PlantByID.get (Plants.post db data).1 db.nextId).2.body = Json.obj
      [("id", Json.num db.nextId), ("name", n), ("image", img), ("price", pr),
       ("is_in_stock", (jsonGet data "is_in_stock").getD (Json.bool true))] := by
  have hmatch : matchesId db.nextId
      ⟨Json.num db.nextId, n, img, pr, (jsonGet data "is_in_stock").getD (Json.bool true)⟩
      = true := by
    simp [matchesId, Json.isNum]
  have hfind : ((Plants.post db data).1).findPlant db.nextId = some
      ⟨Json.num db.nextId, n, img, pr, (jsonGet data "is_in_stock").getD (Json.bool true)⟩ := by
    simp only [Plants.post, hn, hi, hp, DB.findPlant]
    exact find?_append_last _ _ _ hfresh hmatch
  refine ⟨?_, ?_, ?_, ?_⟩
  · simp [Plants.post, hn, hi, hp]
  · simp [Plants.post, hn, hi, hp, Plant.to_dict]
  · simp [PlantByID.get, hfind]
  · simp [PlantByID.get, hfind, Plant.to_dict]

theorem post_then_get_witness :
    (Plants.post ⟨[], 1⟩
      [("name", Json.str "Aloe"), ("image", Json.str "aloe.jpg"), ("price", Json.num 15)]).2.status
        = 201 ∧
    (Plants.post ⟨[], 1⟩
      [("name", Json.str "Aloe"), ("image", Json.str "aloe.jpg"), ("price", Json.num 15)]).2.body
        = Json.obj [("id", Json.num 1), ("name", Json.str "Aloe"), ("image", Json.str "aloe.jpg"),
            ("price", Json.num 15), ("is_in_stock", Json.bool true)] ∧
    (PlantByID.get (Plants.post ⟨[], 1⟩
      [("name", Json.str "Aloe"), ("image", Json.str "aloe.jpg"), ("price", Json.num 15)]).1 1).2.status
        = 200 ∧
    (PlantByID.get (Plants.post ⟨[], 1⟩
      [("name", Json.str "Aloe"), ("image", Json.str "aloe.jpg"), ("price", Json.num 15)]).1 1).2.body
        = Json.obj [("id", Json.num 1), ("name", Json.str "Aloe"), ("image", Json.str "aloe.jpg"),
            ("price", Json.num 15), ("is_in_stock", Json.bool true)] := by
  simpa using post_then_get ⟨[], 1⟩
    [("name", Json.str "Aloe"), ("image", Json.str "aloe.jpg"), ("price", Json.num 15)]
    (Json.str "Aloe") (Json.str "aloe.jpg") (Json.num 15) rfl rfl rfl (by simp)

/-- C4: PATCH `/plants/{id}` with body `{"is_in_stock": false}` on an
existing record answers 200 with that record's `is_in_stock` set to false;
the record's other fields (`id`, `name`, `image`, `price`), every other
record, and the next identifier are exactly as before the PATCH. -/
theorem patch_sets_is_in_stock (pre post : List Plant) (p : Plant) (nid i : Nat)
    (hpre : ∀ q ∈ pre, matchesId i q = false)
    (hp : matchesId i p = true) :
    (PlantByID.patch ⟨pre ++ p :: post, nid⟩ i [("is_in_stock", Json.bool false)]).2.status
      = 200 ∧
    (PlantByID.patch ⟨pre ++ p :: post, nid⟩ i [("is_in_stock", Json.bool false)]).2.body
      = Json.obj [("id", p.id), ("name", p.name), ("image", p.image), ("price", p.price),
          ("is_in_stock", Json.bool false)] ∧
    (PlantByID.patch ⟨pre ++ p :: post, nid⟩ i [("is_in_stock", Json.bool false)]).1
      = ⟨pre ++ { p with is_in_stock := Json.bool false } :: post, nid⟩ := by
  have hfind : (DB.mk (pre ++ p :: post) nid).findPlant i = some p :=
    find?_middle _ _ _ _ hpre hp
  have happ : applyData p [("is_in_stock", Json.bool false)]
      = { p with is_in_stock := Json.bool false } := by
    simp [applyData, Plant.setattr, Plant.hasattr]
  have hrep : replaceFirst (matchesId i) { p with is_in_stock := Json.bool false }
      (pre ++ p :: post) = pre ++ { p with is_in_stock := Json.bool false } :: post :=
    replaceFirst_middle _ _ _ _ _ hpre hp
  have hid : p.id.isNum i = true := hp
  have hce : commitError i { p with is_in_stock := Json.bool false }
      (removeFirst (matchesId i) (pre ++ p :: post)) = none := by
    simp [commitError, hid]
  refine ⟨?_, ?_, ?_⟩ <;>
    simp [PlantByID.patch, hfind, happ, hce, hrep, Plant.to_dict]

theorem patch_sets_is_in_stock_witness :
    (PlantByID.patch ⟨[aloe], 2⟩ 1 [("is_in_stock", Json.bool false)]).2.status = 200 ∧
    (PlantByID.patch ⟨[aloe], 2⟩ 1 [("is_in_stock", Json.bool false)]).2.body
      = Json.obj [("id", aloe.id), ("name", aloe.name), ("image", aloe.image),
          ("price", aloe.price), ("is_in_stock", Json.bool false)] ∧
    (PlantByID.patch ⟨[aloe], 2⟩ 1 [("is_in_stock", Json.bool false)]).1
      = ⟨[{ aloe with is_in_stock := Json.bool false }], 2⟩ := by
  simpa using patch_sets_is_in_stock [] [] aloe 2 1 (by simp) rfl

/-- C7: DELETE `/plants/{id}` on an existing record (ids being unique)
answers 204 with an empty body, and GET `/plants/{id}` on the resulting
store answers 404. -/
theorem delete_then_get (db : DB) (i : Nat) (p : Plant)
    (hf : db.findPlant i = some p)
    (hu : db.plants.countP (matchesId i) ≤ 1) :
    (PlantByID.delete db i).2 = ⟨204, Json.str ""⟩ ∧
    (PlantByID.get (PlantByID.delete db i).1 i).2 = ⟨404, notFoundBody⟩ := by
  have h1 : PlantByID.delete db i
      = (⟨removeFirst (matchesId i) db.plants, db.nextId⟩, ⟨204, Json.str ""⟩) := by
    simp [PlantByID.delete, hf]
  have h2 : (removeFirst (matchesId i) db.plants).find? (matchesId i) = none :=
    find?_removeFirst_of_countP_le_one _ _ hu
  rw [h1]
  exact ⟨rfl, by simp [PlantByID.get, DB.findPlant, h2]⟩

theorem delete_then_get_witness :
    (PlantByID.delete db1 1).2 = ⟨204, Json.str ""⟩ ∧
    (PlantByID.get (PlantByID.delete db1 1).1 1).2 = ⟨404, notFoundBody⟩ :=
  delete_then_get db1 1 aloe rfl (by decide)

